import Mathlib

/-!
Shallow embedding of the gbemu Game Boy emulator core (src/cpu.rs, src/bus.rs,
src/cartridge.rs, src/ram.rs, src/gpu.rs, src/lib.rs, src/emulator.rs).

Machine integers are modelled as `Nat` with explicit `% 2^w` where the Rust
code wraps; `i8` values are modelled as `Int`.  Rust integer arithmetic is
taken with release-profile (two's-complement wrapping) semantics.  Fallible
code paths (`todo!()` panics and the dead `Timer`/`P1`/`DIV`/`IF` match arms)
are modelled with `Option`, `none` standing for a panic.  The fixed-size
`Vec<u8>` byte arrays (`Ram::data`, `Cartridge::data`, `Gpu::data`) are
modelled as total functions `Nat → Nat`; every access made by the verified
claims is within the sizes allocated in `Emulator::from_rom_byte` (all RAMs
0x2000 bytes, GPU 1024 bytes) given a standard 32 KiB ROM image.
-/

namespace Gbemu

/-- Pointwise update of a byte store; models `vec[a] = b` on a `Vec<u8>`. -/
def store (f : Nat → Nat) (a b : Nat) : Nat → Nat :=
  fun x => if x = a then b else f x

/-- `join_half_words` (src/lib.rs): `(upper as u16) << 8 ^ lower as u16`.
Arguments are `u8` at every call site, hence the `% 256`. -/
def join_half_words (upper lower : Nat) : Nat :=
  ((upper % 256) <<< 8) ^^^ (lower % 256)

/-- `FlagRegister` (src/cpu.rs): Z/N/H/C flag bits. -/
structure FlagRegister where
  z : Bool
  n : Bool
  h : Bool
  c : Bool

/-- `FlagRegister::from_byte` (src/cpu.rs lines 82-89), exactly as coded:
`z: (byte >> 6) == 1, n: (byte >> 5) == 1, h: (byte >> 4) == 1,
c: (byte >> 3) == 1`. -/
def FlagRegister.from_byte (byte : Nat) : FlagRegister :=
  { z := byte >>> 6 == 1
    n := byte >>> 5 == 1
    h := byte >>> 4 == 1
    c := byte >>> 3 == 1 }

/-- `Registers` (src/cpu.rs): the eight-byte register file. -/
structure Registers where
  a : Nat
  b : Nat
  c : Nat
  d : Nat
  e : Nat
  h : Nat
  l : Nat
  f : FlagRegister

/-- `Ram` (src/ram.rs): a byte array. -/
structure Ram where
  data : Nat → Nat

/-- `Ram::read`: `self.data[address]`. -/
def Ram.read (r : Ram) (address : Nat) : Nat := r.data address

/-- `Ram::write`: `self.data[address] = byte`. -/
def Ram.write (r : Ram) (address byte : Nat) : Ram :=
  ⟨store r.data address byte⟩

/-- `Cartridge` (src/cartridge.rs): owns the ROM image bytes. -/
structure Cartridge where
  data : Nat → Nat

/-- `Cartridge::read`: `self.data[address]`. -/
def Cartridge.read (cart : Cartridge) (address : Nat) : Nat :=
  cart.data address

/-- `Cartridge::write` (src/cartridge.rs lines 18-20):
`self.data[address as usize] = byte` — it stores into the ROM image. -/
def Cartridge.write (cart : Cartridge) (address byte : Nat) : Cartridge :=
  ⟨store cart.data address byte⟩

/-- `SCREEN_WIDTH` (src/gpu.rs). -/
def SCREEN_WIDTH : Nat := 160

/-- `CYCLE_PER_LINE` (src/gpu.rs). -/
def CYCLE_PER_LINE : Nat := 456

/-- `Gpu` (src/gpu.rs) minus the `Option<SharedBus>` back-pointer, which the
wired emulator always sets (`Emulator::from_rom_byte` calls `set_bus`); the
bus side of GPU register writes is modelled inside `Bus.write_byte_fuel`. -/
structure Gpu where
  data : Nat → Nat
  cycles : Nat
  ly : Nat
  scroll_x : Nat
  scroll_y : Nat
  lcdc : Nat

/-- `Gpu::new` (src/gpu.rs): zeroed data and counters, `lcdc = 0x91`. -/
def Gpu.new : Gpu :=
  { data := fun _ => 0, cycles := 0, ly := 0
    scroll_x := 0, scroll_y := 0, lcdc := 0x91 }

/-- `Gpu::build_gb_tile` (src/gpu.rs lines 57-72).  The loop body computes
tile coordinates and performs bus *reads* (which mutate nothing) and then
unconditionally hits `todo!()`; since `SCREEN_WIDTH = 160 > 0` the first
iteration always panics.  Modelled as the corresponding abort. -/
def Gpu.build_gb_tile (gpu : Gpu) : Option Gpu :=
  if SCREEN_WIDTH = 0 then some gpu else none

/-- `Gpu::build_sprites` (src/gpu.rs line 74): an empty body. -/
def Gpu.build_sprites (gpu : Gpu) : Option Gpu := some gpu

/-- `Gpu::step` (src/gpu.rs lines 33-55): add 4 cycles; if a full line has
elapsed, render (`build_gb_tile` for `ly < 144`, `build_sprites` at 144,
reset `ly` to 0 for `ly >= 144` otherwise), then `ly += 1` and
`cycles -= CYCLE_PER_LINE`.  The `self.bus.is_none()` panic is ignored: the
wired emulator always sets the bus. -/
def Gpu.step (gpu : Gpu) : Option Gpu :=
  let gpu := { gpu with cycles := gpu.cycles + 4 }
  if gpu.cycles < CYCLE_PER_LINE then some gpu
  else
    (if gpu.ly < 144 then gpu.build_gb_tile
     else if gpu.ly = 144 then gpu.build_sprites
     else if 144 ≤ gpu.ly then some { gpu with ly := 0 }
     else some gpu).map fun gpu =>
      { gpu with ly := gpu.ly + 1, cycles := gpu.cycles - CYCLE_PER_LINE }

/-- Iterated `Gpu::step`: the fixed drip of 4 cycles per step of Property 6. -/
def Gpu.stepN : Nat → Gpu → Option Gpu
  | 0, gpu => some gpu
  | n + 1, gpu => gpu.step.bind (Gpu.stepN n)

/-- `Device` (src/bus.rs lines 114-128). -/
inductive Device where
  | HRam : Nat → Device
  | OamRam : Nat → Device
  | MirrorRam : Nat → Device
  | WorkingRam : Nat → Device
  | VideoRam : Nat → Device
  | Cartridge : Nat → Device
  | Gpu : Nat → Device
  | P1 : Device
  | IF : Device
  | DIV : Device
  | Timer : Nat → Device
  | Unimplement : Device

/-- `Device::resolve_bus_address` (src/bus.rs lines 131-163), the match arms
in source order.  `addr` is a `u16`, so every address is below 0x10000; the
0xFF00/0xFF04/0xFF05..0xFF08/0xFF0F arms only log a TODO warning and yield
`Device::Unimplement`, as does the catch-all `_` arm. -/
def Device.resolve_bus_address (addr : Nat) : Device :=
  if addr < 0x8000 then .Cartridge addr
  else if addr < 0xA000 then .VideoRam (addr - 0x8000)
  else if addr < 0xC000 then .Cartridge addr
  else if addr < 0xE000 then .WorkingRam (addr - 0xC000)
  else if addr < 0xFE00 then .MirrorRam (addr - 0xE000)
  else if addr < 0xFEA0 then .OamRam (addr - 0xFE00)
  else if 0xFF80 ≤ addr ∧ addr ≤ 0xFFFF then .HRam (addr - 0xFF80)
  else if 0xFF40 ≤ addr ∧ addr < 0xFF80 then .Gpu (addr - 0xFF40)
  else if addr = 0xFF00 then .Unimplement
  else if addr = 0xFF04 then .Unimplement
  else if 0xFF05 ≤ addr ∧ addr < 0xFF08 then .Unimplement
  else if addr = 0xFF0F then .Unimplement
  else .Unimplement

/-- `Bus` (src/bus.rs lines 36-44).  The `SharedGpu` is modelled by value:
the bus is the sole owner in this sequential model. -/
structure Bus where
  h_ram : Ram
  oam_ram : Ram
  mirror_ram : Ram
  working_ram : Ram
  video_ram : Ram
  cartridge : Cartridge
  gpu : Gpu

/-- `Bus::read_byte` (src/bus.rs lines 67-84).  The `Gpu` arm is
`Gpu::read`, i.e. `gpu.data[address]`; the `Timer`/`P1`/`DIV`/`IF` arms are
`todo!()` (they are in fact unreachable, since `resolve_bus_address` never
constructs those devices); `Unimplement` reads as 0. -/
def Bus.read_byte (bus : Bus) (address : Nat) : Option Nat :=
  match Device.resolve_bus_address address with
  | .HRam a => some (bus.h_ram.read a)
  | .OamRam a => some (bus.oam_ram.read a)
  | .MirrorRam a => some (bus.mirror_ram.read a)
  | .WorkingRam a => some (bus.working_ram.read a)
  | .VideoRam a => some (bus.video_ram.read a)
  | .Cartridge a => some (bus.cartridge.read a)
  | .Gpu a => some (bus.gpu.data a)
  | .Timer _ => none
  | .P1 => none
  | .DIV => none
  | .IF => none
  | .Unimplement => some 0

/-- `Bus::write_byte` (src/bus.rs lines 86-103) together with the `Gpu::write`
it dispatches to (src/gpu.rs lines 84-90): `Gpu::write` stores the byte in
`gpu.data[address]` and then re-enters `bus.write_byte(address, byte)` at the
*relative* address.  The re-entry is handled with explicit fuel; the relative
address is below 0x40, which `resolve_bus_address` maps to `Cartridge`, so
no chain ever needs more than 2 units of fuel.  The `Unimplement` arm only
logs a warning and leaves the bus unchanged. -/
def Bus.write_byte_fuel : Nat → Bus → Nat → Nat → Option Bus
  | 0, _, _, _ => none
  | fuel + 1, bus, address, byte =>
    match Device.resolve_bus_address address with
    | .HRam a => some { bus with h_ram := bus.h_ram.write a byte }
    | .OamRam a => some { bus with oam_ram := bus.oam_ram.write a byte }
    | .MirrorRam a => some { bus with mirror_ram := bus.mirror_ram.write a byte }
    | .WorkingRam a => some { bus with working_ram := bus.working_ram.write a byte }
    | .VideoRam a => some { bus with video_ram := bus.video_ram.write a byte }
    | .Cartridge a => some { bus with cartridge := bus.cartridge.write a byte }
    | .Gpu a =>
      let bus := { bus with gpu := { bus.gpu with data := store bus.gpu.data a byte } }
      Bus.write_byte_fuel fuel bus a byte
    | .Timer _ => none
    | .P1 => none
    | .DIV => none
    | .IF => none
    | .Unimplement => some bus

/-- `Bus::write_byte` entry point (fuel 2 covers the one GPU re-entry). -/
def Bus.write_byte (bus : Bus) (address byte : Nat) : Option Bus :=
  Bus.write_byte_fuel 2 bus address byte

/-- The bus as wired by `Emulator::from_rom_byte` (src/emulator.rs lines
32-57): freshly zeroed RAMs (`Ram::with_size` zero-fills), a fresh GPU, and
the cartridge holding the ROM image. -/
def Bus.init (rom : Nat → Nat) : Bus :=
  { h_ram := ⟨fun _ => 0⟩
    oam_ram := ⟨fun _ => 0⟩
    mirror_ram := ⟨fun _ => 0⟩
    working_ram := ⟨fun _ => 0⟩
    video_ram := ⟨fun _ => 0⟩
    cartridge := ⟨rom⟩
    gpu := Gpu.new }

/-- `INIT_PC` (src/cpu.rs). -/
def INIT_PC : Nat := 0x100

/-- `INIT_SP` (src/cpu.rs). -/
def INIT_SP : Nat := 0xFFFE

/-- `Cpu` (src/cpu.rs lines 122-133), minus the logger. -/
structure Cpu where
  registers : Registers
  pc : Nat
  sp : Nat
  bus : Bus
  halted : Bool

/-- `Cpu::new` (src/cpu.rs lines 139-157), with the register values exactly
as in the source: `a: 0x11, f: from_byte(0x80), b: 0x00, c: 0x00, d: 0xFF,
e: 0x56, h: 0x00, l: 0x0D`. -/
def Cpu.new (bus : Bus) : Cpu :=
  { registers :=
      { a := 0x11
        f := FlagRegister.from_byte 0x80
        b := 0x00
        c := 0x00
        d := 0xFF
        e := 0x56
        h := 0x00
        l := 0x0D }
    pc := INIT_PC
    sp := INIT_SP
    bus := bus
    halted := false }

/-- `Cpu::fetch` (src/cpu.rs lines 172-177): read `[PC]`, `pc += 1`. -/
def Cpu.fetch (cpu : Cpu) : Option (Nat × Cpu) :=
  (cpu.bus.read_byte cpu.pc).map fun opcode =>
    (opcode, { cpu with pc := (cpu.pc + 1) % 65536 })

/-- `Cpu::fetch_operands` (src/cpu.rs lines 179-181). -/
def Cpu.fetch_operands (cpu : Cpu) : Nat → Option (List Nat × Cpu)
  | 0 => some ([], cpu)
  | n + 1 => do
    let (byte, cpu) ← cpu.fetch
    let (rest, cpu) ← cpu.fetch_operands n
    some (byte :: rest, cpu)

/-- `Cpu::push` (src/cpu.rs lines 989-992): `sp -= 1` then write at `sp`. -/
def Cpu.push (cpu : Cpu) (half_word : Nat) : Option Cpu :=
  let sp := (cpu.sp + 65535) % 65536
  (cpu.bus.write_byte sp half_word).map fun bus =>
    { cpu with sp := sp, bus := bus }

/-- `Cpu::pop` (src/cpu.rs lines 994-999): read at `sp` then `sp += 1`. -/
def Cpu.pop (cpu : Cpu) : Option (Nat × Cpu) :=
  (cpu.bus.read_byte cpu.sp).map fun byte =>
    (byte, { cpu with sp := (cpu.sp + 1) % 65536 })

/-- `Cpu::call_u16` (src/cpu.rs lines 975-981): push `pc >> 8`, then
`pc & 0xFF`, then `pc = join_half_words(operands[1], operands[0])`. -/
def Cpu.call_u16 (cpu : Cpu) (operands : List Nat) : Option Cpu := do
  let upper := cpu.pc >>> 8
  let lower := cpu.pc &&& 0xFF
  let cpu ← cpu.push upper
  let cpu ← cpu.push lower
  some { cpu with pc := join_half_words (operands.getD 1 0) (operands.getD 0 0) }

/-- `Cpu::callcc_u16` (src/cpu.rs lines 983-987). -/
def Cpu.callcc_u16 (cpu : Cpu) (flag is_set : Bool) (operands : List Nat) :
    Option Cpu :=
  if flag == is_set then cpu.call_u16 operands else some cpu

/-- `Cpu::ret` (src/cpu.rs lines 963-967), exactly as coded:
`let (upper, lower) = (self.pop(), self.pop()); self.pc =
join_half_words(upper, lower)` — the first pop (the byte at `sp`, i.e. the
last byte pushed) is bound to `upper`. -/
def Cpu.ret (cpu : Cpu) : Option Cpu := do
  let (upper, cpu) ← cpu.pop
  let (lower, cpu) ← cpu.pop
  some { cpu with pc := join_half_words upper lower }

/-- `Cpu::retcc` (src/cpu.rs lines 969-973). -/
def Cpu.retcc (cpu : Cpu) (flag is_set : Bool) : Option Cpu :=
  if flag == is_set then cpu.ret else some cpu

/-- `Cpu::jp_u16` (src/cpu.rs lines 838-840). -/
def Cpu.jp_u16 (cpu : Cpu) (operands : List Nat) : Cpu :=
  { cpu with pc := join_half_words (operands.getD 1 0) (operands.getD 0 0) }

/-- The value of `operands[0] as i8`: the byte reinterpreted in two's
complement. -/
def i8_val (b : Nat) : Int :=
  if b % 256 < 128 then ((b % 256 : Nat) : Int)
  else ((b % 256 : Nat) : Int) - 256

/-- The two's-complement byte of an `i8` value. -/
def byte_of_i8 (n : Int) : Nat := ((n % 256 + 256) % 256).toNat

/-- Release-profile `i8` negation (`-n` wraps: `-(-128) = -128`). -/
def i8_wrapping_neg (n : Int) : Int := i8_val (byte_of_i8 (-n))

/-- `i8 as u16`: sign extension to 16 bits. -/
def u16_of_i8 (n : Int) : Nat := ((n % 65536 + 65536) % 65536).toNat

/-- `Cpu::jr_i8` (src/cpu.rs lines 884-892): `let n = operands[0] as i8;
if n < 0 { self.pc -= -n as u16 } else { self.pc += n as u16 }`, with
release-profile wrapping `u16` arithmetic. -/
def Cpu.jr_i8 (cpu : Cpu) (operands : List Nat) : Cpu :=
  let n := i8_val (operands.getD 0 0)
  if n < 0 then
    { cpu with pc := (cpu.pc + 65536 - u16_of_i8 (i8_wrapping_neg n) % 65536) % 65536 }
  else
    { cpu with pc := (cpu.pc + u16_of_i8 n) % 65536 }

/-- `Cpu::jrcc_i8` (src/cpu.rs lines 872-882): same body as `jr_i8`, guarded
by `flag == is_set`. -/
def Cpu.jrcc_i8 (cpu : Cpu) (flag is_set : Bool) (operands : List Nat) : Cpu :=
  let n := i8_val (operands.getD 0 0)
  if flag == is_set then
    if n < 0 then
      { cpu with pc := (cpu.pc + 65536 - u16_of_i8 (i8_wrapping_neg n) % 65536) % 65536 }
    else
      { cpu with pc := (cpu.pc + u16_of_i8 n) % 65536 }
  else cpu

/-- `Cpu::cp_u8` (src/cpu.rs lines 847-870): set N; H iff
`a & 0xF < value & 0xF`; C iff `a < value`; Z iff `value == a`.  The
accumulator is never written. -/
def Cpu.cp_u8 (cpu : Cpu) (operands : List Nat) : Cpu :=
  let value := operands.getD 0 0
  let a := cpu.registers.a
  let f := { cpu.registers.f with n := true }
  let f := { f with h := decide (a &&& 0xF < value &&& 0xF) }
  let f := { f with c := decide (a < value) }
  let f := { f with z := value == a }
  { cpu with registers := { cpu.registers with f := f } }

/-- `Cpu::execute` (src/cpu.rs lines 184-587).  Arms are modelled for the
opcodes exercised by the claims below: NOP, JR, JR cc, HALT, JP, CALL,
CALL cc, RET, RET cc and CP A,u8.  Every remaining arm of the source match
is either a register/memory load not touched by any claim or a literal
`todo!()`; those arms are mapped to `none` here and no theorem relies on
them. -/
def Cpu.execute (cpu : Cpu) (opcode : Nat) : Option Cpu :=
  match opcode with
  | 0x00 => some cpu
  | 0x18 => do
    let (ops, cpu) ← cpu.fetch_operands 1
    some (cpu.jr_i8 ops)
  | 0x20 => do
    let (ops, cpu) ← cpu.fetch_operands 1
    some (cpu.jrcc_i8 cpu.registers.f.z false ops)
  | 0x28 => do
    let (ops, cpu) ← cpu.fetch_operands 1
    some (cpu.jrcc_i8 cpu.registers.f.z true ops)
  | 0x30 => do
    let (ops, cpu) ← cpu.fetch_operands 1
    some (cpu.jrcc_i8 cpu.registers.f.c false ops)
  | 0x38 => do
    let (ops, cpu) ← cpu.fetch_operands 1
    some (cpu.jrcc_i8 cpu.registers.f.c true ops)
  | 0x76 => some { cpu with halted := true }
  | 0xC0 => cpu.retcc cpu.registers.f.z false
  | 0xC3 => do
    let (ops, cpu) ← cpu.fetch_operands 2
    some (cpu.jp_u16 ops)
  | 0xC4 => do
    let (ops, cpu) ← cpu.fetch_operands 2
    cpu.callcc_u16 cpu.registers.f.z false ops
  | 0xC8 => cpu.retcc cpu.registers.f.z true
  | 0xC9 => cpu.ret
  | 0xCC => do
    let (ops, cpu) ← cpu.fetch_operands 2
    cpu.callcc_u16 cpu.registers.f.z true ops
  | 0xCD => do
    let (ops, cpu) ← cpu.fetch_operands 2
    cpu.call_u16 ops
  | 0xD0 => cpu.retcc cpu.registers.f.c false
  | 0xD4 => do
    let (ops, cpu) ← cpu.fetch_operands 2
    cpu.callcc_u16 cpu.registers.f.c false ops
  | 0xD8 => cpu.retcc cpu.registers.f.c true
  | 0xDC => do
    let (ops, cpu) ← cpu.fetch_operands 2
    cpu.callcc_u16 cpu.registers.f.c true ops
  | 0xFE => do
    let (ops, cpu) ← cpu.fetch_operands 1
    some (cpu.cp_u8 ops)
  | _ => none

/-- `Cpu::step` (src/cpu.rs lines 159-170): if halted do nothing, else fetch
and execute. -/
def Cpu.step (cpu : Cpu) : Option Cpu :=
  if cpu.halted then some cpu
  else do
    let (opcode, cpu) ← cpu.fetch
    cpu.execute opcode

/-- Modelled from the spec: the `JR i8` target `PC ← PC + sign_extend(i8)`
by sign-extension to 16 bits and wrapping 16-bit addition (spec sections 4.3
Control flow and 9 Signed arithmetic on PC), for comparison with
`Cpu.jr_i8`. -/
def jr_spec_target (pc op : Nat) : Nat :=
  (pc + (if op % 256 < 128 then op % 256 else 0xFF00 + op % 256)) % 65536

/-- An all-zero ROM image. -/
def rom0 : Nat → Nat := fun _ => 0

/-- The ROM for the CALL/RET round-trip scenario: `CALL 0x2000` at 0x0150
and `RET` at 0x2000, everything else 0 (NOP). -/
def rom_call_ret : Nat → Nat := fun a =>
  if a = 0x0150 then 0xCD
  else if a = 0x0151 then 0x00
  else if a = 0x0152 then 0x20
  else if a = 0x2000 then 0xC9
  else 0

/-! Helper lemmas about the address decoder. -/

/-- Every address in 0xFEA0..0xFEFF or 0xFF00..0xFF3F decodes to
`Device::Unimplement`. -/
theorem resolve_unmapped {a : Nat}
    (h : (0xFEA0 ≤ a ∧ a ≤ 0xFEFF) ∨ (0xFF00 ≤ a ∧ a < 0xFF40)) :
    Device.resolve_bus_address a = Device.Unimplement := by
  have g1 : ¬ a < 0x8000 := by omega
  have g2 : ¬ a < 0xA000 := by omega
  have g3 : ¬ a < 0xC000 := by omega
  have g4 : ¬ a < 0xE000 := by omega
  have g5 : ¬ a < 0xFE00 := by omega
  have g6 : ¬ a < 0xFEA0 := by omega
  have g7 : ¬ (0xFF80 ≤ a ∧ a ≤ 0xFFFF) := by omega
  have g8 : ¬ (0xFF40 ≤ a ∧ a < 0xFF80) := by omega
  unfold Device.resolve_bus_address
  rw [if_neg g1, if_neg g2, if_neg g3, if_neg g4, if_neg g5, if_neg g6,
    if_neg g7, if_neg g8]
  simp only [ite_self]

/-- Every address in 0xFF40..0xFF7F decodes to the GPU at the relative
offset. -/
theorem resolve_gpu {a : Nat} (h1 : 0xFF40 ≤ a) (h2 : a < 0xFF80) :
    Device.resolve_bus_address a = Device.Gpu (a - 0xFF40) := by
  have k1 : ¬ a < 0x8000 := by omega
  have k2 : ¬ a < 0xA000 := by omega
  have k3 : ¬ a < 0xC000 := by omega
  have k4 : ¬ a < 0xE000 := by omega
  have k5 : ¬ a < 0xFE00 := by omega
  have k6 : ¬ a < 0xFEA0 := by omega
  have k7 : ¬ (0xFF80 ≤ a ∧ a ≤ 0xFFFF) := by omega
  unfold Device.resolve_bus_address
  rw [if_neg k1, if_neg k2, if_neg k3, if_neg k4, if_neg k5, if_neg k6,
    if_neg k7, if_pos ⟨h1, h2⟩]

/-- Every address below 0x8000 decodes to the cartridge. -/
theorem resolve_rom {a : Nat} (h : a < 0x8000) :
    Device.resolve_bus_address a = Device.Cartridge a := by
  unfold Device.resolve_bus_address
  rw [if_pos h]

/-- Unfolding lemma: one `Bus::write_byte` dispatch step that lands on the
GPU consumes one unit of fuel and re-enters at the relative address. -/
theorem write_byte_fuel_gpu (fuel : Nat) (bus : Bus) {address : Nat} (byte : Nat)
    (h : Device.resolve_bus_address address = Device.Gpu (address - 0xFF40)) :
    Bus.write_byte_fuel (fuel + 1) bus address byte =
      Bus.write_byte_fuel fuel
        { bus with gpu :=
            { bus.gpu with data := store bus.gpu.data (address - 0xFF40) byte } }
        (address - 0xFF40) byte := by
  simp only [Bus.write_byte_fuel]
  rw [h]

/-- Unfolding lemma: one `Bus::write_byte` dispatch step that lands on the
cartridge writes the ROM byte and stops. -/
theorem write_byte_fuel_cartridge (fuel : Nat) (bus : Bus) {address : Nat} (byte : Nat)
    (h : Device.resolve_bus_address address = Device.Cartridge address) :
    Bus.write_byte_fuel (fuel + 1) bus address byte =
      some { bus with cartridge := bus.cartridge.write address byte } := by
  simp only [Bus.write_byte_fuel]
  rw [h]

/-! Claim theorems. -/

/-- C1: the CALL/RET round-trip.  With `SP = 0xFFFE`, executing
`CALL 0x2000` at `PC = 0x0150` and then `RET` at 0x2000 does restore
`SP = 0xFFFE`, but ends with `PC = 0x5301`, not the claimed `0x0153`:
`Cpu::ret` binds the first-popped byte (the low byte of the pushed return
address) to `upper` and joins it into the high half of `PC`. -/
theorem c1_call_ret_round_trip :
    (do
      let cpu ← Cpu.step { Cpu.new (Bus.init rom_call_ret) with pc := 0x0150 }
      let cpu ← Cpu.step cpu
      some (cpu.pc, cpu.sp)) = some (0x5301, 0xFFFE) := by
  decide

/-- C2 counterexample: a newly constructed CPU does not carry the DMG
post-boot reset state claimed by the spec (already `A` is 0x11, not
0x01). -/
theorem c2_reset_counterexample :
    ¬ ((Cpu.new (Bus.init rom0)).registers.a = 0x01 ∧
       (Cpu.new (Bus.init rom0)).registers.f.z = true ∧
       (Cpu.new (Bus.init rom0)).registers.f.n = false ∧
       (Cpu.new (Bus.init rom0)).registers.f.h = true ∧
       (Cpu.new (Bus.init rom0)).registers.f.c = true ∧
       (Cpu.new (Bus.init rom0)).registers.b = 0x00 ∧
       (Cpu.new (Bus.init rom0)).registers.c = 0x13 ∧
       (Cpu.new (Bus.init rom0)).registers.d = 0x00 ∧
       (Cpu.new (Bus.init rom0)).registers.e = 0xD8 ∧
       (Cpu.new (Bus.init rom0)).registers.h = 0x01 ∧
       (Cpu.new (Bus.init rom0)).registers.l = 0x4D ∧
       (Cpu.new (Bus.init rom0)).sp = 0xFFFE ∧
       (Cpu.new (Bus.init rom0)).pc = 0x0100) := by
  decide

/-- C2 amended: a newly constructed CPU has `A = 0x11`, all four flag bits
clear (`FlagRegister::from_byte(0x80)` under the shifted decoder),
`BC = 0x0000`, `DE = 0xFF56`, `HL = 0x000D`, `SP = 0xFFFE`,
`PC = 0x0100` — the CGB-style boot values, not the DMG ones. -/
theorem c2_reset_values (bus : Bus) :
    (Cpu.new bus).registers.a = 0x11 ∧
    (Cpu.new bus).registers.f.z = false ∧
    (Cpu.new bus).registers.f.n = false ∧
    (Cpu.new bus).registers.f.h = false ∧
    (Cpu.new bus).registers.f.c = false ∧
    (Cpu.new bus).registers.b = 0x00 ∧
    (Cpu.new bus).registers.c = 0x00 ∧
    (Cpu.new bus).registers.d = 0xFF ∧
    (Cpu.new bus).registers.e = 0x56 ∧
    (Cpu.new bus).registers.h = 0x00 ∧
    (Cpu.new bus).registers.l = 0x0D ∧
    (Cpu.new bus).sp = 0xFFFE ∧
    (Cpu.new bus).pc = 0x0100 :=
  ⟨rfl, rfl, rfl, rfl, rfl, rfl, rfl, rfl, rfl, rfl, rfl, rfl, rfl⟩

/-- C3: `FlagRegister::from_byte` does not follow the specified bit layout:
at byte 0x40 it sets Z although bit 7 is 0 (the code tests
`(byte >> 6) == 1`), and at byte 0x80 it clears Z although bit 7 is 1;
similarly 0x20 sets N (bit 6 is 0) and 0x08 sets C (bit 4 is 0). -/
theorem c3_from_byte_divergence :
    (FlagRegister.from_byte 0x40).z = true ∧ 0x40 >>> 7 &&& 1 = 0 ∧
    (FlagRegister.from_byte 0x80).z = false ∧ 0x80 >>> 7 &&& 1 = 1 ∧
    (FlagRegister.from_byte 0x20).n = true ∧ 0x20 >>> 6 &&& 1 = 0 ∧
    (FlagRegister.from_byte 0x08).c = true ∧ 0x08 >>> 4 &&& 1 = 0 := by
  decide

/-- C4: `Cpu::jr_i8` diverges from the sign-extend-and-wrap semantics at
operand 0x80 (n = -128): with post-operand-fetch `PC = 0x0152` the code
(under release-profile wrapping) computes `PC = 0x01D2` — it jumps
*forward* 128 bytes because `-n` wraps to -128 and `-128 as u16 = 0xFF80`
is subtracted — while the spec target is `PC = 0x00D2`.  (A debug build
panics on the `-n` overflow instead.) -/
theorem c4_jr_divergence :
    (Cpu.jr_i8 { Cpu.new (Bus.init rom0) with pc := 0x0152 } [0x80]).pc = 0x01D2 ∧
    jr_spec_target 0x0152 0x80 = 0x00D2 := by
  decide

/-- C5: after `CP A,u8` with operand `v`, Z is set iff `A = v`, N is set,
H is set iff `A & 0xF < v & 0xF`, C is set iff `A < v`, and the
accumulator is unchanged. -/
theorem c5_cp_flags (cpu : Cpu) (v : Nat) :
    (cpu.cp_u8 [v]).registers.a = cpu.registers.a ∧
    ((cpu.cp_u8 [v]).registers.f.z = true ↔ cpu.registers.a = v) ∧
    (cpu.cp_u8 [v]).registers.f.n = true ∧
    ((cpu.cp_u8 [v]).registers.f.h = true ↔
      cpu.registers.a &&& 0xF < v &&& 0xF) ∧
    ((cpu.cp_u8 [v]).registers.f.c = true ↔ cpu.registers.a < v) := by
  refine ⟨rfl, ?_, rfl, ?_, ?_⟩
  · show (v == cpu.registers.a) = true ↔ cpu.registers.a = v
    rw [beq_iff_eq]
    exact eq_comm
  · show decide (cpu.registers.a &&& 0xF < v &&& 0xF) = true ↔
      cpu.registers.a &&& 0xF < v &&& 0xF
    simp
  · show decide (cpu.registers.a < v) = true ↔ cpu.registers.a < v
    simp

/-- C6: a write into ROM address space mutates the ROM image: writing 0x42
at address 0x0000 (over a ROM byte that reads 0x00) makes the cartridge
byte 0x42 — `Cartridge::write` stores straight into `data`, there is no
MBC control-register layer. -/
theorem c6_rom_write_mutates :
    rom0 0x0000 = 0x00 ∧
    ((Bus.init rom0).write_byte 0x0000 0x42).map
        (fun bus => bus.cartridge.data 0x0000) = some 0x42 := by
  decide

/-- C7: the echo range is not wired to working RAM: after writing 0x42 at
0xC000, reading 0xC000 + 0x2000 = 0xE000 yields 0x00 (the separate, still
zeroed `mirror_ram`), not 0x42; symmetrically a write at 0xE000 is not
visible at 0xC000. -/
theorem c7_echo_broken :
    ((Bus.init rom0).write_byte 0xC000 0x42).bind
        (fun bus => bus.read_byte 0xE000) = some 0x00 ∧
    ((Bus.init rom0).write_byte 0xE000 0x37).bind
        (fun bus => bus.read_byte 0xC000) = some 0x00 := by
  decide

/-- C8 counterexample: reading the unmapped address 0xFEA0 returns 0x00,
not the claimed 0xFF. -/
theorem c8_unmapped_read_counterexample :
    ¬ ((Bus.init rom0).read_byte 0xFEA0 = some 0xFF) := by
  decide

/-- C8 amended: for every unmapped address — any `a` in 0xFEA0..0xFEFF and
every unimplemented I/O address in 0xFF00..0xFF3F (including 0xFF00,
0xFF04..0xFF07 and 0xFF0F) — `Bus::read_byte` returns 0x00, silently and
for every bus state. -/
theorem c8_unmapped_read_zero (bus : Bus) (a : Nat)
    (h : (0xFEA0 ≤ a ∧ a ≤ 0xFEFF) ∨ (0xFF00 ≤ a ∧ a < 0xFF40)) :
    bus.read_byte a = some 0x00 := by
  unfold Bus.read_byte
  rw [resolve_unmapped h]

/-- C8 witness: the amended theorem applied at address 0xFEA0 on the
freshly wired bus. -/
theorem c8_unmapped_read_zero_witness :
    ((0xFEA0 ≤ 0xFEA0 ∧ 0xFEA0 ≤ 0xFEFF) ∨ (0xFF00 ≤ 0xFEA0 ∧ 0xFEA0 < 0xFF40)) ∧
    (Bus.init rom0).read_byte 0xFEA0 = some 0x00 :=
  ⟨by decide, c8_unmapped_read_zero (Bus.init rom0) 0xFEA0 (by decide)⟩

/-- C9: scanline timing fails on the code.  First, stepping the fresh GPU
114 times (456 cycles at the fixed 4-cycle drip) panics instead of
incrementing LY: completing a visible line calls `build_gb_tile`, whose
loop body hits `todo!()`.  Second, the wrap branch is wrong: a line
completing at LY = 153 sets LY to 1 (`ly = 0` then `ly += 1`), not to 0,
so LY never wraps 153 → 0 and no 154-line, 70224-cycle frame exists. -/
theorem c9_scanline_timing :
    Gpu.stepN 114 Gpu.new = none ∧
    (Gpu.step { Gpu.new with cycles := 452, ly := 153 }).map Gpu.ly = some 1 :=
  ⟨rfl, rfl⟩

/-- C10: a write to a PPU register address `a` in 0xFF40..0xFF7F stores the
byte in the GPU register array *and* re-enters the bus at the relative
address `a - 0xFF40`, which lands in cartridge ROM space 0x0000..0x003F:
after the write, both the GPU register and the ROM byte at `a - 0xFF40`
hold the written value. -/
theorem c10_gpu_register_write_hits_rom (bus : Bus) (a b : Nat)
    (h1 : 0xFF40 ≤ a) (h2 : a < 0xFF80) :
    ∃ bus2, bus.write_byte a b = some bus2 ∧
      bus2.gpu.data (a - 0xFF40) = b ∧
      a - 0xFF40 < 0x0040 ∧
      bus2.cartridge.data (a - 0xFF40) = b := by
  refine ⟨{ bus with
            gpu := { bus.gpu with data := store bus.gpu.data (a - 0xFF40) b }
            cartridge := bus.cartridge.write (a - 0xFF40) b }, ?_, ?_, by omega, ?_⟩
  · show Bus.write_byte_fuel (0 + 1 + 1) bus a b = _
    rw [write_byte_fuel_gpu (0 + 1) bus b (resolve_gpu h1 h2)]
    rw [write_byte_fuel_cartridge 0 _ b (resolve_rom (by omega))]
  · simp [store]
  · simp [Cartridge.write, store]

/-- C10 witness: writing 0xFC to the palette register address 0xFF47 on the
freshly wired bus updates both the GPU array and ROM byte 0x0007. -/
theorem c10_gpu_register_write_hits_rom_witness :
    0xFF40 ≤ 0xFF47 ∧ 0xFF47 < 0xFF80 ∧
    ∃ bus2, (Bus.init rom0).write_byte 0xFF47 0xFC = some bus2 ∧
      bus2.gpu.data (0xFF47 - 0xFF40) = 0xFC ∧
      0xFF47 - 0xFF40 < 0x0040 ∧
      bus2.cartridge.data (0xFF47 - 0xFF40) = 0xFC :=
  ⟨by decide, by decide,
   c10_gpu_register_write_hits_rom (Bus.init rom0) 0xFF47 0xFC (by decide) (by decide)⟩

end Gbemu
